import Mathlib

/-!
MainWindow (src/main_window.cpp).

A shallow embedding of the `MainWindow` constructor and destructor.  The constructor is a
straight-line sequence of calls into the Qt widget library; the object world those calls act on
is modelled as an explicit store of `QObject` records, and every Qt call of the source is a
function on that store.  `__DATE__` and `__TIME__` are string literals supplied by the compiler,
so they are parameters of the constructor.
-/

namespace MainWindowModel

/-- Object identities: a `QObject*` that is not null. `Option ObjId` is a nullable pointer. -/
abbrev ObjId := Nat

/-- The Qt classes instantiated by the source. -/
inductive QClass
  | QMainWindow
  | QWidget
  | QVBoxLayout
  | QLabel
  | QPushButton
  deriving DecidableEq, Repr

/-- Signals of `QAbstractButton` emitted by a click. -/
inductive Signal
  | pressed
  | released
  | clicked
  deriving DecidableEq, Repr

/-- Static slots of the application object. -/
inductive Slot
  | aboutQt
  | quit
  deriving DecidableEq, Repr

/-- The context object of a connection: the application instance (`qApp`) or a stored object. -/
inductive Receiver
  | qApp
  | object (id : ObjId)
  deriving DecidableEq, Repr

/-- One entry of a sender's connection list. -/
structure Connection where
  signal : Signal
  receiver : Receiver
  slot : Slot
  deriving DecidableEq, Repr

/-- The part of a Qt object the source reads or writes. -/
structure QObject where
  cls : QClass
  parent : Option ObjId
  text : String
  layout : Option ObjId
  items : List ObjId
  centralWidget : Option ObjId
  connections : List Connection
  deriving DecidableEq, Repr

/-- Failures of a Qt call: use of a pointer to no object, or to an object of the wrong class. -/
inductive QtError
  | invalidPointer (id : ObjId)
  | badCast (id : ObjId)
  deriving DecidableEq, Repr

/-- The object world of a running `QApplication`.  Qt requires the application instance to exist
before any widget is constructed, so `qApp` is always there and is not a store entry; the store
holds every other object, `next` is the identity the next `new` returns, and the two counters
record how often the application slots have run. -/
structure QtState where
  objs : ObjId → Option QObject
  next : ObjId
  aboutQtCalls : Nat
  quitCalls : Nat
  deferredDelete : List ObjId

/-- The state right after the application object has been created. -/
def QtState.init : QtState :=
  { objs := fun _ => none, next := 0, aboutQtCalls := 0, quitCalls := 0, deferredDelete := [] }

/-- Overwrite the record of one object. -/
def setObj (s : QtState) (id : ObjId) (o : Option QObject) : QtState :=
  { s with objs := fun i => if i = id then o else s.objs i }

/-- Dereference a pointer. -/
def getObj (s : QtState) (id : ObjId) : Except QtError QObject :=
  match s.objs id with
  | some o => .ok o
  | none => .error (.invalidPointer id)

/-- `QObject::isWidgetType`. -/
def isWidgetType : QClass → Bool
  | .QVBoxLayout => false
  | _ => true

/-- Dereference a `QWidget*`. -/
def getWidget (s : QtState) (id : ObjId) : Except QtError QObject :=
  match getObj s id with
  | .ok o => if isWidgetType o.cls then .ok o else .error (.badCast id)
  | .error e => .error e

/-- Dereference a `QLayout*`. -/
def getLayout (s : QtState) (id : ObjId) : Except QtError QObject :=
  match getObj s id with
  | .ok o => if o.cls = .QVBoxLayout then .ok o else .error (.badCast id)
  | .error e => .error e

/-- Dereference a `QMainWindow*`. -/
def getMainWindow (s : QtState) (id : ObjId) : Except QtError QObject :=
  match getObj s id with
  | .ok o => if o.cls = .QMainWindow then .ok o else .error (.badCast id)
  | .error e => .error e

/-- A freshly constructed object of class `cls`. -/
def mkObject (cls : QClass) (parent : Option ObjId) (text : String) : QObject :=
  { cls := cls, parent := parent, text := text, layout := none, items := [],
    centralWidget := none, connections := [] }

/-- Operator `new`: store the object under the next free identity. -/
def allocObject (o : QObject) (s : QtState) : ObjId × QtState :=
  (s.next, { setObj s s.next (some o) with next := s.next + 1 })

/-- `QMainWindow(parent)`. -/
def newQMainWindow (parent : Option ObjId) (s : QtState) : ObjId × QtState :=
  allocObject (mkObject .QMainWindow parent "") s

/-- `new QWidget(parent)`. -/
def newQWidget (parent : Option ObjId) (s : QtState) : ObjId × QtState :=
  allocObject (mkObject .QWidget parent "") s

/-- The NUL character, which ends a C string. -/
def nul : Char := Char.ofNat 0

/-- `QString(const char*)`: the conversion applied to a string literal that is passed where a
`QString` is expected.  The literal is read as a C string, so the text is what stands before the
first NUL character. -/
def fromCString (str : String) : String :=
  ⟨str.data.takeWhile (fun c => c != nul)⟩

/-- `new QLabel(text, parent)` with `text` given as a `const char*` literal. -/
def newQLabel (text : String) (parent : Option ObjId) (s : QtState) : ObjId × QtState :=
  allocObject (mkObject .QLabel parent (fromCString text)) s

/-- `new QPushButton(text, parent)` with `text` given as a `const char*` literal. -/
def newQPushButton (text : String) (parent : Option ObjId) (s : QtState) : ObjId × QtState :=
  allocObject (mkObject .QPushButton parent (fromCString text)) s

/-- `new QVBoxLayout(parent)`: the layout becomes a child object of `parent` and, through
`QWidget::setLayout`, its layout, unless the widget already has one (Qt then only warns). -/
def newQVBoxLayout (parent : Option ObjId) (s : QtState) : Except QtError (ObjId × QtState) :=
  match parent with
  | none => .ok (allocObject (mkObject .QVBoxLayout none "") s)
  | some p => do
    let po ← getWidget s p
    let (l, s) := allocObject (mkObject .QVBoxLayout (some p) "") s
    match po.layout with
    | some _ => pure (l, s)
    | none => pure (l, setObj s p (some { po with layout := some l }))

/-- `QObject::connect(sender, signal, context, slot)`: append to the sender's connections. -/
def connect (sender : ObjId) (signal : Signal) (receiver : Receiver) (slot : Slot)
    (s : QtState) : Except QtError QtState := do
  let o ← getObj s sender
  match receiver with
  | .qApp => pure ()
  | .object r => let _ ← getObj s r
  pure (setObj s sender
    (some { o with connections := o.connections ++ [⟨signal, receiver, slot⟩] }))

/-- The layout installed on the parent widget of `wo`, if any. -/
def layoutOfParent (s : QtState) (wo : QObject) : Option ObjId :=
  match wo.parent with
  | none => none
  | some pw =>
    match s.objs pw with
    | none => none
    | some po => po.layout

/-- Take widget `w` out of the items of `layout`. -/
def removeWidget (layout w : ObjId) (s : QtState) : QtState :=
  match s.objs layout with
  | some l => setObj s layout (some { l with items := l.items.erase w })
  | none => s

/-- `QLayout::addChildWidget`: a widget that sits in the layout of its parent is taken out of
it, and a widget whose parent is not the layout's parent widget is reparented to it. -/
def addChildWidget (parentWidget : Option ObjId) (w : ObjId) (s : QtState) :
    Except QtError QtState := do
  let wo ← getWidget s w
  let s := match layoutOfParent s wo with
    | some pl => removeWidget pl w s
    | none => s
  match parentWidget with
  | none => pure s
  | some mw =>
    if wo.parent = some mw then pure s
    else pure (setObj s w (some { wo with parent := some mw }))

/-- `QBoxLayout::addWidget(w)`: adopt the widget, then append it to the items. -/
def addWidget (layout w : ObjId) (s : QtState) : Except QtError QtState := do
  let l ← getLayout s layout
  let s ← addChildWidget l.parent w s
  let l ← getLayout s layout
  pure (setObj s layout (some { l with items := l.items ++ [w] }))

/-- `QMainWindow::setCentralWidget(w)`: a different previous central widget is scheduled for
deletion, the window adopts `w`, and `w` becomes the central widget. -/
def setCentralWidget (window w : ObjId) (s : QtState) : Except QtError QtState := do
  let mw ← getMainWindow s window
  let s := match mw.centralWidget with
    | some old => if old = w then s else { s with deferredDelete := s.deferredDelete ++ [old] }
    | none => s
  let s ← addChildWidget (some window) w s
  let mw ← getMainWindow s window
  pure (setObj s window (some { mw with centralWidget := some w }))

/-- `MainWindow::MainWindow(QWidget* parent)`, lines 26-40.  `buildDate` and `buildTime` are the
literals `__DATE__` and `__TIME__`; adjacent literals concatenate into one literal, which
`newQLabel` receives as a `const char*`. -/
def MainWindow (parent : Option ObjId) (buildDate buildTime : String) (s : QtState) :
    Except QtError (ObjId × QtState) := do
  let (this, s) := newQMainWindow parent s
  let (container, s) := newQWidget (some this) s
  let (layout, s) ← newQVBoxLayout (some container) s
  let (buildInfoLabel, s) :=
    newQLabel ("Built on " ++ buildDate ++ " " ++ buildTime) (some container) s
  let (aboutQtbutton, s) := newQPushButton "About Qt" (some container) s
  let s ← connect aboutQtbutton .clicked .qApp .aboutQt s
  let s ← addWidget layout buildInfoLabel s
  let s ← addWidget layout aboutQtbutton s
  let s ← setCentralWidget this container s
  pure (this, s)

/-- Run one slot of the application. -/
def invokeSlot : Slot → QtState → QtState
  | .aboutQt, s => { s with aboutQtCalls := s.aboutQtCalls + 1 }
  | .quit, s => { s with quitCalls := s.quitCalls + 1 }

/-- A connection is live while its context object exists. -/
def receiverAlive (s : QtState) : Receiver → Bool
  | .qApp => true
  | .object r => (s.objs r).isSome

/-- Emit `signal` from `sender`: every live connection of the sender for that signal runs its
slot, in connection order. -/
def emitSignal (sender : ObjId) (signal : Signal) (s : QtState) : Except QtError QtState := do
  let o ← getObj s sender
  pure ((o.connections.filter (fun c => c.signal = signal)).foldl
    (fun acc c => if receiverAlive acc c.receiver then invokeSlot c.slot acc else acc) s)

/-- `QAbstractButton::click()`: one activation emits `pressed`, `released` and `clicked`. -/
def click (button : ObjId) (s : QtState) : Except QtError QtState := do
  let o ← getObj s button
  if o.cls = .QPushButton then
    let s ← emitSignal button .pressed s
    let s ← emitSignal button .released s
    emitSignal button .clicked s
  else throw (.badCast button)

/-- The child objects of `p`, in creation order. -/
def children (s : QtState) (p : ObjId) : List ObjId :=
  (List.range s.next).filter (fun i =>
    match s.objs i with
    | some o => o.parent = some p
    | none => false)

/-- The destructor chain of `QObject`: the children are deleted first, in creation order, each
with its own subtree, then the object itself leaves the store.  `fuel` bounds the depth of the
ownership tree that is followed. -/
def deleteObject : Nat → ObjId → QtState → QtState
  | 0, _, s => s
  | fuel + 1, x, s =>
    setObj ((children s x).foldl (fun acc c => deleteObject fuel c acc) s) x none

/-- `MainWindow::~MainWindow()`, lines 42-44: the body is empty, so destruction is the inherited
release of the window and of everything it owns.  No ownership chain is longer than the number of
identities handed out, which is the fuel. -/
def destroyMainWindow (window : ObjId) (s : QtState) : QtState :=
  deleteObject (s.next + 1) window s

/-- The owning parent of an object. -/
def parentOf (s : QtState) (id : ObjId) : Option ObjId :=
  match s.objs id with
  | some o => o.parent
  | none => none

/-- The class of an object. -/
def classOf (s : QtState) (id : ObjId) : Option QClass :=
  (s.objs id).map (fun o => o.cls)

/-- `QLabel::text` and `QAbstractButton::text`. -/
def textOf (s : QtState) (id : ObjId) : Option String :=
  (s.objs id).map (fun o => o.text)

/-- `QWidget::layout`. -/
def layoutOf (s : QtState) (id : ObjId) : Option ObjId :=
  match s.objs id with
  | some o => o.layout
  | none => none

/-- The widgets of a layout, in order. -/
def itemsOf (s : QtState) (id : ObjId) : List ObjId :=
  match s.objs id with
  | some o => o.items
  | none => []

/-- `QMainWindow::centralWidget`. -/
def centralWidgetOf (s : QtState) (id : ObjId) : Option ObjId :=
  match s.objs id with
  | some o => o.centralWidget
  | none => none

/-- The connections whose sender is `id`. -/
def connectionsOf (s : QtState) (id : ObjId) : List Connection :=
  match s.objs id with
  | some o => o.connections
  | none => []

/-- Whether `a` is reached from `x` by following at most `fuel` parent links (at least one). -/
def isDescendantOf (s : QtState) : Nat → ObjId → ObjId → Bool
  | 0, _, _ => false
  | fuel + 1, x, a =>
    match parentOf s x with
    | none => false
    | some p => p = a || isDescendantOf s fuel p a

/-- The widgets arranged in the layout of the window's central widget, in order. -/
def centralItems (s : QtState) (window : ObjId) : List ObjId :=
  match centralWidgetOf s window with
  | none => []
  | some c =>
    match layoutOf s c with
    | none => []
    | some l => itemsOf s l

/-- What is visible of one arranged widget: class, text, connections. -/
structure WidgetView where
  cls : QClass
  text : String
  connections : List Connection
  deriving DecidableEq, Repr

/-- The structure of a window with identities left out: the parent link, the classes of the
central widget and of its layout, and the arranged widgets in order. -/
structure WindowView where
  parent : Option ObjId
  central : Option QClass
  layout : Option QClass
  items : List (Option WidgetView)
  deriving DecidableEq, Repr

/-- Read the structure of `window` off the store. -/
def windowView (s : QtState) (window : ObjId) : WindowView :=
  { parent := parentOf s window
    central := (centralWidgetOf s window).bind (classOf s)
    layout := ((centralWidgetOf s window).bind (layoutOf s)).bind (classOf s)
    items := (centralItems s window).map (fun i =>
      (s.objs i).map (fun o => { cls := o.cls, text := o.text, connections := o.connections })) }

/-- The store with the parent link of `id` replaced and nothing else touched. -/
def withParent (s : QtState) (id : ObjId) (parent : Option ObjId) : QtState :=
  match s.objs id with
  | some o => setObj s id (some { o with parent := parent })
  | none => s

/-- An identity seen from `base`: its signed distance to it. -/
def relId (base i : ObjId) : Int :=
  (i : Int) - (base : Int)

/-- A connection whose context object is seen from a base identity; `none` is `qApp`. -/
structure ConnectionShape where
  signal : Signal
  receiver : Option Int
  slot : Slot
  deriving DecidableEq, Repr

/-- An object record in which every identity is seen from a base identity. -/
structure ObjectShape where
  cls : QClass
  parent : Option Int
  text : String
  layout : Option Int
  items : List Int
  centralWidget : Option Int
  connections : List ConnectionShape
  deriving DecidableEq, Repr

/-- The record `o` with all its identities seen from `base`. -/
def shapeOf (base : ObjId) (o : QObject) : ObjectShape :=
  { cls := o.cls
    parent := o.parent.map (relId base)
    text := o.text
    layout := o.layout.map (relId base)
    items := o.items.map (relId base)
    centralWidget := o.centralWidget.map (relId base)
    connections := o.connections.map (fun c =>
      { signal := c.signal
        receiver := match c.receiver with
          | .qApp => none
          | .object r => some (relId base r)
        slot := c.slot }) }

/-- The records stored under the `n` identities from `base` on, each seen from `base`. -/
def createdShapes (s : QtState) (base : ObjId) (n : Nat) : List (Option ObjectShape) :=
  (List.range n).map (fun k => (s.objs (base + k)).map (shapeOf base))

/-- A three-character date literal whose second character is NUL. -/
def nulDate : String :=
  ⟨['a', nul, 'b']⟩

/-- Closed form of the state the constructor leaves behind; `MainWindow_eq` proves that the
constructor computes it. -/
def builtState (parent : Option ObjId) (buildDate buildTime : String) (s : QtState) : QtState :=
  { s with
    next := s.next + 5
    objs := fun i =>
      if i = s.next then
        some { mkObject .QMainWindow parent "" with centralWidget := some (s.next + 1) }
      else if i = s.next + 1 then
        some { mkObject .QWidget (some s.next) "" with layout := some (s.next + 2) }
      else if i = s.next + 2 then
        some { mkObject .QVBoxLayout (some (s.next + 1)) "" with
          items := [s.next + 3, s.next + 4] }
      else if i = s.next + 3 then
        some (mkObject .QLabel (some (s.next + 1))
          (fromCString ("Built on " ++ buildDate ++ " " ++ buildTime)))
      else if i = s.next + 4 then
        some { mkObject .QPushButton (some (s.next + 1)) (fromCString "About Qt") with
          connections := [⟨.clicked, .qApp, .aboutQt⟩] }
      else s.objs i }

/-! The constructor in closed form -/

theorem MainWindow_eq (parent : Option ObjId) (d t : String) (s : QtState) :
    MainWindow parent d t s = .ok (s.next, builtState parent d t s) := by
  simp [MainWindow, newQMainWindow, newQWidget, newQVBoxLayout, newQLabel, newQPushButton,
    connect, addWidget, addChildWidget, setCentralWidget, allocObject, setObj, getObj, getWidget,
    getLayout, getMainWindow, mkObject, isWidgetType, layoutOfParent, removeWidget, bind,
    Except.bind, pure, Except.pure, builtState, Nat.add_assoc]
  funext i
  split_ifs <;> first | rfl | contradiction | (exfalso; simp_all)

theorem builtState_objs_window (parent : Option ObjId) (d t : String) (s : QtState) :
    (builtState parent d t s).objs s.next =
      some { mkObject .QMainWindow parent "" with centralWidget := some (s.next + 1) } := by
  simp [builtState]

theorem builtState_objs_container (parent : Option ObjId) (d t : String) (s : QtState) :
    (builtState parent d t s).objs (s.next + 1) =
      some { mkObject .QWidget (some s.next) "" with layout := some (s.next + 2) } := by
  simp [builtState]

theorem builtState_objs_layout (parent : Option ObjId) (d t : String) (s : QtState) :
    (builtState parent d t s).objs (s.next + 2) =
      some { mkObject .QVBoxLayout (some (s.next + 1)) "" with
        items := [s.next + 3, s.next + 4] } := by
  simp [builtState]

theorem builtState_objs_label (parent : Option ObjId) (d t : String) (s : QtState) :
    (builtState parent d t s).objs (s.next + 3) =
      some (mkObject .QLabel (some (s.next + 1))
        (fromCString ("Built on " ++ d ++ " " ++ t))) := by
  simp [builtState]

theorem builtState_objs_button (parent : Option ObjId) (d t : String) (s : QtState) :
    (builtState parent d t s).objs (s.next + 4) =
      some { mkObject .QPushButton (some (s.next + 1)) (fromCString "About Qt") with
        connections := [⟨.clicked, .qApp, .aboutQt⟩] } := by
  simp [builtState]

theorem builtState_centralItems (parent : Option ObjId) (d t : String) (s : QtState) :
    centralItems (builtState parent d t s) s.next = [s.next + 3, s.next + 4] := by
  simp [centralItems, centralWidgetOf, layoutOf, itemsOf, builtState_objs_window,
    builtState_objs_container, builtState_objs_layout, mkObject]

/-! Recursive release -/

theorem deleteObject_succ (fuel : Nat) (x : ObjId) (s : QtState) :
    deleteObject (fuel + 1) x s =
      setObj ((children s x).foldl (fun acc c => deleteObject fuel c acc) s) x none := rfl

theorem foldl_delete_next (fuel : Nat)
    (ih : ∀ x s, (deleteObject fuel x s).next = s.next) (cs : List ObjId) :
    ∀ acc : QtState, (cs.foldl (fun a c => deleteObject fuel c a) acc).next = acc.next := by
  induction cs with
  | nil => intro acc; rfl
  | cons a rest ihr =>
    intro acc
    rw [List.foldl_cons, ihr, ih]

theorem deleteObject_next (fuel : Nat) :
    ∀ (x : ObjId) (s : QtState), (deleteObject fuel x s).next = s.next := by
  induction fuel with
  | zero => intro x s; rfl
  | succ f ih =>
    intro x s
    rw [deleteObject_succ]
    show (List.foldl (fun acc c => deleteObject f c acc) s (children s x)).next = s.next
    exact foldl_delete_next f ih _ s

theorem foldl_delete_objs (fuel : Nat)
    (ih : ∀ x s i, (deleteObject fuel x s).objs i = none ∨
      (deleteObject fuel x s).objs i = s.objs i) (cs : List ObjId) :
    ∀ (acc : QtState) (i : ObjId),
      (cs.foldl (fun a c => deleteObject fuel c a) acc).objs i = none ∨
      (cs.foldl (fun a c => deleteObject fuel c a) acc).objs i = acc.objs i := by
  induction cs with
  | nil => intro acc i; exact Or.inr rfl
  | cons a rest ihr =>
    intro acc i
    rw [List.foldl_cons]
    rcases ihr (deleteObject fuel a acc) i with h | h
    · exact Or.inl h
    · rcases ih a acc i with h2 | h2
      · exact Or.inl (h.trans h2)
      · exact Or.inr (h.trans h2)

/-- Release never brings an object back and never alters a surviving one. -/
theorem deleteObject_objs (fuel : Nat) :
    ∀ (x : ObjId) (s : QtState) (i : ObjId),
      (deleteObject fuel x s).objs i = none ∨ (deleteObject fuel x s).objs i = s.objs i := by
  induction fuel with
  | zero => intro x s i; exact Or.inr rfl
  | succ f ih =>
    intro x s i
    rw [deleteObject_succ]
    by_cases hix : i = x
    · left; simp [setObj, hix]
    · have h := foldl_delete_objs f ih (children s x) s i
      simpa [setObj, hix] using h

/-- With any fuel, the released object itself is gone. -/
theorem deleteObject_self (fuel : Nat) (x : ObjId) (s : QtState) :
    (deleteObject (fuel + 1) x s).objs x = none := by
  rw [deleteObject_succ]; simp [setObj]

theorem foldl_delete_none (fuel : Nat) (cs : List ObjId) (acc : QtState) (i : ObjId)
    (h : acc.objs i = none) :
    (cs.foldl (fun a c => deleteObject fuel c a) acc).objs i = none := by
  rcases foldl_delete_objs fuel (deleteObject_objs fuel) cs acc i with h2 | h2
  · exact h2
  · exact h2.trans h

theorem foldl_delete_mem (fuel : Nat) (c : ObjId) (cs : List ObjId) :
    ∀ acc : QtState, c ∈ cs →
      (cs.foldl (fun a x => deleteObject (fuel + 1) x a) acc).objs c = none := by
  induction cs with
  | nil => intro acc h; cases h
  | cons a rest ihr =>
    intro acc h
    rw [List.foldl_cons]
    by_cases hac : a = c
    · subst hac
      exact foldl_delete_none _ _ _ _ (deleteObject_self fuel a acc)
    · have hm : c ∈ rest := by
        rcases List.mem_cons.1 h with h1 | h1
        · exact absurd h1.symm hac
        · exact h1
      exact ihr _ hm

theorem mem_children (s : QtState) (p c : ObjId) :
    c ∈ children s p ↔ c < s.next ∧ parentOf s c = some p := by
  unfold children parentOf
  rw [List.mem_filter, List.mem_range]
  cases s.objs c <;> simp

/-- A child of the released object is gone once the fuel reaches it. -/
theorem deleteObject_child (fuel : Nat) (x c : ObjId) (s : QtState) (hc : c < s.next)
    (hp : parentOf s c = some x) : (deleteObject (fuel + 2) x s).objs c = none := by
  rw [deleteObject_succ]
  have hm : c ∈ children s x := (mem_children s x c).2 ⟨hc, hp⟩
  have h := foldl_delete_mem fuel c (children s x) s hm
  by_cases hcx : c = x
  · simp [setObj, hcx]
  · simpa [setObj, hcx] using h

theorem foldl_delete_grandchild (fuel : Nat) (s : QtState) (c g : ObjId) (hg : g < s.next)
    (hgp : parentOf s g = some c) (cs : List ObjId) :
    ∀ acc : QtState, acc.next = s.next → (acc.objs g = none ∨ acc.objs g = s.objs g) →
      c ∈ cs → (cs.foldl (fun a x => deleteObject (fuel + 2) x a) acc).objs g = none := by
  induction cs with
  | nil => intro acc _ _ h; cases h
  | cons a rest ihr =>
    intro acc hn hacc h
    rw [List.foldl_cons]
    by_cases hac : a = c
    · subst hac
      apply foldl_delete_none
      rcases hacc with h0 | h0
      · rcases deleteObject_objs (fuel + 2) a acc g with h1 | h1
        · exact h1
        · exact h1.trans h0
      · apply deleteObject_child fuel a g acc (by rw [hn]; exact hg)
        unfold parentOf at hgp ⊢
        rw [h0]; exact hgp
    · have hm : c ∈ rest := by
        rcases List.mem_cons.1 h with h1 | h1
        · exact absurd h1.symm hac
        · exact h1
      refine ihr _ ((deleteObject_next _ a acc).trans hn) ?_ hm
      rcases deleteObject_objs (fuel + 2) a acc g with h1 | h1
      · exact Or.inl h1
      · rcases hacc with h0 | h0
        · exact Or.inl (h1.trans h0)
        · exact Or.inr (h1.trans h0)

/-- A grandchild of the released object is gone once the fuel reaches it. -/
theorem deleteObject_grandchild (fuel : Nat) (x c g : ObjId) (s : QtState) (hc : c < s.next)
    (hg : g < s.next) (hcp : parentOf s c = some x) (hgp : parentOf s g = some c) :
    (deleteObject (fuel + 3) x s).objs g = none := by
  rw [deleteObject_succ]
  have hm : c ∈ children s x := (mem_children s x c).2 ⟨hc, hcp⟩
  have h := foldl_delete_grandchild fuel s c g hg hgp (children s x) s rfl (Or.inr rfl) hm
  by_cases hgx : g = x
  · simp [setObj, hgx]
  · simpa [setObj, hgx] using h

/-! Activation of the button -/

theorem click_builtState (parent : Option ObjId) (d t : String) (s : QtState) :
    click (s.next + 4) (builtState parent d t s) =
      .ok { builtState parent d t s with aboutQtCalls := s.aboutQtCalls + 1 } := by
  simp [click, emitSignal, getObj, builtState_objs_button, mkObject, bind, Except.bind, pure,
    Except.pure, receiverAlive, invokeSlot]
  rfl

/-! Conversion of literals -/

theorem fromCString_aboutQt : fromCString "About Qt" = "About Qt" := by decide

theorem fromCString_builtOn (x : String) :
    fromCString ("Built on " ++ x) = "Built on " ++ fromCString x := by
  apply String.ext
  simp [fromCString, String.data_append, List.takeWhile_cons, nul]

theorem fromCString_of_no_nul (x : String) (h : nul ∉ x.data) : fromCString x = x := by
  apply String.ext
  show x.data.takeWhile (fun c => c != nul) = x.data
  rw [List.takeWhile_eq_self_iff]
  intro c hc
  have hne : c ≠ nul := fun e => h (e ▸ hc)
  simpa using hne

/-! Frame and shape of the constructed state -/

theorem builtState_objs_old (parent : Option ObjId) (d t : String) (s : QtState) (i : ObjId)
    (h : ¬ (s.next ≤ i ∧ i < s.next + 5)) : (builtState parent d t s).objs i = s.objs i := by
  have h0 : i ≠ s.next := fun e =>
    h ⟨by rw [e], by rw [e]; exact Nat.lt_add_of_pos_right (by decide)⟩
  have h1 : i ≠ s.next + 1 := fun e =>
    h ⟨by rw [e]; exact Nat.le_add_right _ _, by rw [e]; exact Nat.add_lt_add_left (by decide) _⟩
  have h2 : i ≠ s.next + 2 := fun e =>
    h ⟨by rw [e]; exact Nat.le_add_right _ _, by rw [e]; exact Nat.add_lt_add_left (by decide) _⟩
  have h3 : i ≠ s.next + 3 := fun e =>
    h ⟨by rw [e]; exact Nat.le_add_right _ _, by rw [e]; exact Nat.add_lt_add_left (by decide) _⟩
  have h4 : i ≠ s.next + 4 := fun e =>
    h ⟨by rw [e]; exact Nat.le_add_right _ _, by rw [e]; exact Nat.add_lt_add_left (by decide) _⟩
  simp [builtState, h0, h1, h2, h3, h4]

theorem builtState_createdShapes (parent : Option ObjId) (d t : String) (s : QtState) :
    createdShapes (withParent (builtState parent d t s) s.next none) s.next 5 =
      [some ⟨.QMainWindow, none, "", none, [], some 1, []⟩,
        some ⟨.QWidget, some 0, "", some 2, [], none, []⟩,
        some ⟨.QVBoxLayout, some 1, "", none, [3, 4], none, []⟩,
        some ⟨.QLabel, some 1, fromCString ("Built on " ++ d ++ " " ++ t), none, [], none, []⟩,
        some ⟨.QPushButton, some 1, fromCString "About Qt", none, [], none,
          [⟨.clicked, none, .aboutQt⟩]⟩] := by
  have hr : List.range 5 = [0, 1, 2, 3, 4] := by decide
  simp [createdShapes, hr, withParent, builtState_objs_window, setObj, builtState, shapeOf,
    relId, mkObject]

/-! The claims -/

/-- C1: for every parent argument, present or absent, the layout of the window's central widget
holds exactly two items, a `QLabel` first and a `QPushButton` second. -/
theorem MainWindow_layout_label_then_button (parent : Option ObjId) (d t : String)
    (s : QtState) :
    ∃ window s' container layout label button,
      MainWindow parent d t s = .ok (window, s') ∧
      centralWidgetOf s' window = some container ∧
      layoutOf s' container = some layout ∧
      classOf s' layout = some .QVBoxLayout ∧
      itemsOf s' layout = [label, button] ∧
      classOf s' label = some .QLabel ∧
      classOf s' button = some .QPushButton := by
  refine ⟨s.next, builtState parent d t s, s.next + 1, s.next + 2, s.next + 3, s.next + 4,
    MainWindow_eq parent d t s, ?_⟩
  simp [centralWidgetOf, layoutOf, classOf, itemsOf, builtState_objs_window,
    builtState_objs_container, builtState_objs_layout, builtState_objs_label,
    builtState_objs_button, mkObject]

/-- C2: the constructor runs `aboutQt` zero times (the counter is what it was before), the
button it creates has exactly one connection, from `clicked` to the application's `aboutQt`, and
one activation of the button succeeds and raises the counter by exactly one. -/
theorem MainWindow_click_invokes_aboutQt_once (parent : Option ObjId) (d t : String)
    (s : QtState) :
    ∃ window s' label button s'',
      MainWindow parent d t s = .ok (window, s') ∧
      centralItems s' window = [label, button] ∧
      s'.aboutQtCalls = s.aboutQtCalls ∧
      connectionsOf s' button = [⟨.clicked, .qApp, .aboutQt⟩] ∧
      click button s' = .ok s'' ∧
      s''.aboutQtCalls = s.aboutQtCalls + 1 := by
  refine ⟨s.next, builtState parent d t s, s.next + 3, s.next + 4, _,
    MainWindow_eq parent d t s, builtState_centralItems parent d t s, rfl, ?_,
    click_builtState parent d t s, rfl⟩
  simp [connectionsOf, builtState_objs_button, mkObject]

/-- C3: for every construction, the text of the button is exactly "About Qt". -/
theorem MainWindow_button_text (parent : Option ObjId) (d t : String) (s : QtState) :
    ∃ window s' label button,
      MainWindow parent d t s = .ok (window, s') ∧
      centralItems s' window = [label, button] ∧
      classOf s' button = some .QPushButton ∧
      textOf s' button = some "About Qt" := by
  refine ⟨s.next, builtState parent d t s, s.next + 3, s.next + 4,
    MainWindow_eq parent d t s, builtState_centralItems parent d t s, ?_⟩
  simp [classOf, textOf, builtState_objs_button, mkObject, fromCString_aboutQt]

/-- C4: for every build date and build time string, empty ones included, the label text is
not empty and has "Built on" as a substring. -/
theorem MainWindow_label_contains_built_on (parent : Option ObjId) (d t : String)
    (s : QtState) :
    ∃ window s' label button txt,
      MainWindow parent d t s = .ok (window, s') ∧
      centralItems s' window = [label, button] ∧
      textOf s' label = some txt ∧
      txt ≠ "" ∧
      ∃ before after : String, txt = before ++ "Built on" ++ after := by
  refine ⟨s.next, builtState parent d t s, s.next + 3, s.next + 4,
    "Built on " ++ fromCString (d ++ (" " ++ t)),
    MainWindow_eq parent d t s, builtState_centralItems parent d t s, ?_, ?_, ?_⟩
  · simp [textOf, builtState_objs_label, mkObject, String.append_assoc, fromCString_builtOn]
  · intro h
    have hl := congrArg String.length h
    simp [String.length_append] at hl
    exact absurd hl.1 (by decide)
  · refine ⟨"", " " ++ fromCString (d ++ (" " ++ t)), ?_⟩
    apply String.ext
    simp [String.data_append]

/-- C5, for strings without NUL: for every build date `d` and build time `t` that contain no NUL character,
the label text is the concatenation "Built on " ++ d ++ " " ++ t, with both strings taken over
unchanged. -/
theorem MainWindow_label_text (parent : Option ObjId) (d t : String) (s : QtState)
    (hd : nul ∉ d.data) (ht : nul ∉ t.data) :
    ∃ window s' label button,
      MainWindow parent d t s = .ok (window, s') ∧
      centralItems s' window = [label, button] ∧
      classOf s' label = some .QLabel ∧
      textOf s' label = some ("Built on " ++ d ++ " " ++ t) := by
  have hn : nul ∉ ("Built on " ++ d ++ " " ++ t).data := by
    simp only [String.data_append, List.mem_append, not_or]
    exact ⟨⟨⟨by decide, hd⟩, by decide⟩, ht⟩
  refine ⟨s.next, builtState parent d t s, s.next + 3, s.next + 4,
    MainWindow_eq parent d t s, builtState_centralItems parent d t s, ?_⟩
  simp [classOf, textOf, builtState_objs_label, mkObject, fromCString_of_no_nul _ hn]

/-- C5, witness: an ordinary compiler date and time contain no NUL, and the label shows them in
full. -/
theorem MainWindow_label_text_witness :
    (nul ∉ "Oct 31 2026".data ∧ nul ∉ "12:00:00".data) ∧
    ∃ window s' label button,
      MainWindow none "Oct 31 2026" "12:00:00" QtState.init = .ok (window, s') ∧
      centralItems s' window = [label, button] ∧
      classOf s' label = some .QLabel ∧
      textOf s' label = some ("Built on " ++ "Oct 31 2026" ++ " " ++ "12:00:00") :=
  ⟨⟨by decide, by decide⟩,
    MainWindow_label_text none "Oct 31 2026" "12:00:00" QtState.init (by decide) (by decide)⟩

/-- C5, counterexample: with the date literal `nulDate` (a, NUL, b) and the time "c" the label
of the first window reads "Built on a"; it is not the concatenation of the prefix, the date, a
space and the time. -/
theorem MainWindow_label_text_cut_at_nul :
    ∃ s', MainWindow none nulDate "c" QtState.init = .ok (0, s') ∧
      centralItems s' 0 = [3, 4] ∧
      textOf s' 3 = some "Built on a" ∧
      textOf s' 3 ≠ some ("Built on " ++ nulDate ++ " " ++ "c") := by
  have ht : textOf (builtState none nulDate "c" QtState.init) 3 = some "Built on a" := by
    have h := builtState_objs_label none nulDate "c" QtState.init
    have hc : fromCString ("Built on " ++ nulDate ++ " " ++ "c") = "Built on a" := by decide
    have h3 : QtState.init.next + 3 = 3 := rfl
    rw [h3] at h
    simp [textOf, h, mkObject, hc]
  refine ⟨builtState none nulDate "c" QtState.init, MainWindow_eq none nulDate "c" QtState.init,
    builtState_centralItems none nulDate "c" QtState.init, ht, ?_⟩
  rw [ht]
  decide

theorem builtState_parentOf_container (parent : Option ObjId) (d t : String) (s : QtState) :
    parentOf (builtState parent d t s) (s.next + 1) = some s.next := by
  simp [parentOf, builtState_objs_container, mkObject]

theorem builtState_parentOf_layout (parent : Option ObjId) (d t : String) (s : QtState) :
    parentOf (builtState parent d t s) (s.next + 2) = some (s.next + 1) := by
  simp [parentOf, builtState_objs_layout, mkObject]

theorem builtState_parentOf_label (parent : Option ObjId) (d t : String) (s : QtState) :
    parentOf (builtState parent d t s) (s.next + 3) = some (s.next + 1) := by
  simp [parentOf, builtState_objs_label, mkObject]

theorem builtState_parentOf_button (parent : Option ObjId) (d t : String) (s : QtState) :
    parentOf (builtState parent d t s) (s.next + 4) = some (s.next + 1) := by
  simp [parentOf, builtState_objs_button, mkObject]

/-- C6: the container's parent is the window, the label's and the button's parent is the
container, which is neither the window nor the layout; each of the three widgets is in the
child list of that one object and of no other. -/
theorem MainWindow_single_owning_parent (parent : Option ObjId) (d t : String) (s : QtState) :
    ∃ window s' container layout label button,
      MainWindow parent d t s = .ok (window, s') ∧
      centralWidgetOf s' window = some container ∧
      layoutOf s' container = some layout ∧
      itemsOf s' layout = [label, button] ∧
      parentOf s' container = some window ∧
      parentOf s' label = some container ∧
      parentOf s' button = some container ∧
      container ≠ window ∧ container ≠ layout ∧
      (∀ p, container ∈ children s' p ↔ p = window) ∧
      (∀ p, label ∈ children s' p ↔ p = container) ∧
      (∀ p, button ∈ children s' p ↔ p = container) := by
  refine ⟨s.next, builtState parent d t s, s.next + 1, s.next + 2, s.next + 3, s.next + 4,
    MainWindow_eq parent d t s, ?_, ?_, ?_, builtState_parentOf_container parent d t s,
    builtState_parentOf_label parent d t s, builtState_parentOf_button parent d t s,
    ?_, ?_, ?_, ?_, ?_⟩
  · simp [centralWidgetOf, builtState_objs_window, mkObject]
  · simp [layoutOf, builtState_objs_container, mkObject]
  · simp [itemsOf, builtState_objs_layout, mkObject]
  · simp
  · simp
  · intro p
    rw [mem_children, builtState_parentOf_container]
    simp [builtState, eq_comm]
  · intro p
    rw [mem_children, builtState_parentOf_label]
    simp [builtState, eq_comm]
  · intro p
    rw [mem_children, builtState_parentOf_button]
    simp [builtState, eq_comm]

/-- C7: container, layout, label and button are descendants of the window in the ownership
tree, and releasing the window (the destructor has no code of its own) leaves none of them, nor
the window, in the store. -/
theorem MainWindow_release_leaves_none_alive (parent : Option ObjId) (d t : String)
    (s : QtState) :
    ∃ window s' container layout label button,
      MainWindow parent d t s = .ok (window, s') ∧
      centralWidgetOf s' window = some container ∧
      layoutOf s' container = some layout ∧
      itemsOf s' layout = [label, button] ∧
      isDescendantOf s' 2 container window = true ∧
      isDescendantOf s' 2 layout window = true ∧
      isDescendantOf s' 2 label window = true ∧
      isDescendantOf s' 2 button window = true ∧
      (destroyMainWindow window s').objs window = none ∧
      (destroyMainWindow window s').objs container = none ∧
      (destroyMainWindow window s').objs layout = none ∧
      (destroyMainWindow window s').objs label = none ∧
      (destroyMainWindow window s').objs button = none := by
  have hc := builtState_parentOf_container parent d t s
  have hl := builtState_parentOf_layout parent d t s
  have hlab := builtState_parentOf_label parent d t s
  have hb := builtState_parentOf_button parent d t s
  have hn : (builtState parent d t s).next = s.next + 5 := rfl
  refine ⟨s.next, builtState parent d t s, s.next + 1, s.next + 2, s.next + 3, s.next + 4,
    MainWindow_eq parent d t s, ?_, ?_, ?_, ?_, ?_, ?_, ?_, ?_, ?_, ?_, ?_, ?_⟩
  · simp [centralWidgetOf, builtState_objs_window, mkObject]
  · simp [layoutOf, builtState_objs_container, mkObject]
  · simp [itemsOf, builtState_objs_layout, mkObject]
  · simp [isDescendantOf, hc]
  · simp [isDescendantOf, hc, hl]
  · simp [isDescendantOf, hc, hlab]
  · simp [isDescendantOf, hc, hb]
  · exact deleteObject_self _ _ _
  · exact deleteObject_child (s.next + 4) _ _ _ (by rw [hn]; exact Nat.add_lt_add_left (by decide) _) hc
  · exact deleteObject_grandchild (s.next + 3) _ _ _ _ (by rw [hn]; exact Nat.add_lt_add_left (by decide) _) (by rw [hn]; exact Nat.add_lt_add_left (by decide) _)
      hc hl
  · exact deleteObject_grandchild (s.next + 3) _ _ _ _ (by rw [hn]; exact Nat.add_lt_add_left (by decide) _) (by rw [hn]; exact Nat.add_lt_add_left (by decide) _)
      hc hlab
  · exact deleteObject_grandchild (s.next + 3) _ _ _ _ (by rw [hn]; exact Nat.add_lt_add_left (by decide) _) (by rw [hn]; exact Nat.add_lt_add_left (by decide) _)
      hc hb

/-- C8: for every parent argument the constructor returns a window, never an error; the
window's parent is the argument, so an absent parent gives a window without parent. -/
theorem MainWindow_total (parent : Option ObjId) (d t : String) (s : QtState) :
    ∃ window s',
      MainWindow parent d t s = .ok (window, s') ∧
      classOf s' window = some .QMainWindow ∧
      parentOf s' window = parent := by
  refine ⟨s.next, builtState parent d t s, MainWindow_eq parent d t s, ?_, ?_⟩
  · simp [classOf, builtState_objs_window, mkObject]
  · simp [parentOf, builtState_objs_window, mkObject]

/-- C9: the central widget of the window is the container that carries the vertical layout with
the label and the button; the constructor creates five objects, one of each class, so a single
container; only the new window gets a central widget, none is replaced, and no object that
existed before is touched. -/
theorem MainWindow_single_container (parent : Option ObjId) (d t : String) (s : QtState) :
    ∃ window s' container layout label button,
      MainWindow parent d t s = .ok (window, s') ∧
      centralWidgetOf s' window = some container ∧
      layoutOf s' container = some layout ∧
      parentOf s' layout = some container ∧
      itemsOf s' layout = [label, button] ∧
      window = s.next ∧ s'.next = s.next + 5 ∧
      (List.range' s.next 5).map (classOf s') =
        [some .QMainWindow, some .QWidget, some .QVBoxLayout, some .QLabel,
          some .QPushButton] ∧
      (List.range' s.next 5).map (centralWidgetOf s') =
        [some container, none, none, none, none] ∧
      s'.deferredDelete = s.deferredDelete ∧
      ∀ i, s.next ≤ i ∨ s'.objs i = s.objs i := by
  refine ⟨s.next, builtState parent d t s, s.next + 1, s.next + 2, s.next + 3, s.next + 4,
    MainWindow_eq parent d t s, ?_, ?_, builtState_parentOf_layout parent d t s, ?_, rfl, rfl,
    ?_, ?_, rfl, ?_⟩
  · simp [centralWidgetOf, builtState_objs_window, mkObject]
  · simp [layoutOf, builtState_objs_container, mkObject]
  · simp [itemsOf, builtState_objs_layout, mkObject]
  · simp [List.range', classOf, builtState_objs_window, builtState_objs_container,
      builtState_objs_layout, builtState_objs_label, builtState_objs_button, mkObject,
      Nat.add_assoc]
  · simp [List.range', centralWidgetOf, builtState_objs_window, builtState_objs_container,
      builtState_objs_layout, builtState_objs_label, builtState_objs_button, mkObject,
      Nat.add_assoc]
  · intro i
    by_cases h : s.next ≤ i
    · exact Or.inl h
    · right
      have h0 : i ≠ s.next := fun e => h (by rw [e])
      have h1 : i ≠ s.next + 1 := fun e => h (by rw [e]; exact Nat.le_add_right _ _)
      have h2 : i ≠ s.next + 2 := fun e => h (by rw [e]; exact Nat.le_add_right _ _)
      have h3 : i ≠ s.next + 3 := fun e => h (by rw [e]; exact Nat.le_add_right _ _)
      have h4 : i ≠ s.next + 4 := fun e => h (by rw [e]; exact Nat.le_add_right _ _)
      simp [builtState, h0, h1, h2, h3, h4]

/-- C10: from any two states, constructions with the same parent and build strings give windows
of equal structure: the window's parent link is the argument, and the complete records of the
five objects created (class, parent, text, layout, items, central widget, connections), with
every identity taken relative to the window's, are the same; five identities are handed out,
the counters and the deletion queue are unchanged and no other record is touched.  From one
state, constructions with different parents return the same window identity and states that
differ in nothing but the parent link of that window. -/
theorem MainWindow_depends_only_on_arguments (p₁ p₂ : Option ObjId) (d t : String)
    (s₁ s₂ : QtState) :
    ∃ w₁ s₁' w₂ s₂' s₁'',
      MainWindow p₁ d t s₁ = .ok (w₁, s₁') ∧
      MainWindow p₁ d t s₂ = .ok (w₂, s₂') ∧
      windowView s₁' w₁ = windowView s₂' w₂ ∧
      (windowView s₁' w₁).items.length = 2 ∧
      w₁ = s₁.next ∧ w₂ = s₂.next ∧
      s₁'.next = s₁.next + 5 ∧ s₂'.next = s₂.next + 5 ∧
      parentOf s₁' w₁ = p₁ ∧ parentOf s₂' w₂ = p₁ ∧
      createdShapes (withParent s₁' w₁ none) w₁ 5 =
        createdShapes (withParent s₂' w₂ none) w₂ 5 ∧
      (createdShapes (withParent s₁' w₁ none) w₁ 5).all Option.isSome = true ∧
      s₁'.aboutQtCalls = s₁.aboutQtCalls ∧ s₁'.quitCalls = s₁.quitCalls ∧
      s₁'.deferredDelete = s₁.deferredDelete ∧
      (∀ i, (s₁.next ≤ i ∧ i < s₁.next + 5) ∨ s₁'.objs i = s₁.objs i) ∧
      s₂'.aboutQtCalls = s₂.aboutQtCalls ∧ s₂'.quitCalls = s₂.quitCalls ∧
      s₂'.deferredDelete = s₂.deferredDelete ∧
      (∀ i, (s₂.next ≤ i ∧ i < s₂.next + 5) ∨ s₂'.objs i = s₂.objs i) ∧
      MainWindow p₂ d t s₁ = .ok (w₁, s₁'') ∧
      s₁'' = withParent s₁' w₁ p₂ := by
  refine ⟨s₁.next, builtState p₁ d t s₁, s₂.next, builtState p₁ d t s₂, builtState p₂ d t s₁,
    MainWindow_eq p₁ d t s₁, MainWindow_eq p₁ d t s₂, ?_, ?_, rfl, rfl, rfl, rfl, ?_, ?_, ?_,
    ?_, rfl, rfl, rfl, ?_, rfl, rfl, rfl, ?_, MainWindow_eq p₂ d t s₁, ?_⟩
  · simp [windowView, builtState_centralItems, parentOf, centralWidgetOf, layoutOf, classOf,
      builtState_objs_window, builtState_objs_container, builtState_objs_layout,
      builtState_objs_label, builtState_objs_button, mkObject]
  · simp [windowView, builtState_centralItems]
  · simp [parentOf, builtState_objs_window, mkObject]
  · simp [parentOf, builtState_objs_window, mkObject]
  · rw [builtState_createdShapes, builtState_createdShapes]
  · rw [builtState_createdShapes]; rfl
  · intro i
    by_cases h : s₁.next ≤ i ∧ i < s₁.next + 5
    · exact Or.inl h
    · exact Or.inr (builtState_objs_old p₁ d t s₁ i h)
  · intro i
    by_cases h : s₂.next ≤ i ∧ i < s₂.next + 5
    · exact Or.inl h
    · exact Or.inr (builtState_objs_old p₁ d t s₂ i h)
  · simp only [withParent, builtState_objs_window]
    simp only [builtState, setObj, mkObject]
    congr 1
    funext i
    split_ifs <;> rfl

end MainWindowModel
